import Mathlib

/- Verification of the fastapi_ecommerce repository: a shallow embedding of the
category / product / review data model and of the mutation handlers in
app/routers/categories.py, app/routers/products.py and app/routers/reviews.py,
with the store modelled as in-memory lists and SQLAlchemy queries as list
operations.  Handlers return the (possibly updated) store paired with an
`Except`-style outcome; a Python runtime exception (AttributeError, TypeError)
is a distinguished error value. -/

namespace Ecommerce

/-- `categories` table row (app/models/categories.py). -/
structure Category where
  id : Nat
  parent_id : Option Nat
  name : String
  is_active : Bool
deriving DecidableEq, Repr

/-- `products` table row.  Modelled from the spec: app/models/products.py is not
under src/; fields follow the persisted layout in spec section 6:
products(id, category_id, seller_id, price, stock, rating, is_active),
`rating` a float (here `Rat`). -/
structure Product where
  id : Nat
  category_id : Nat
  seller_id : Nat
  price : Rat
  stock : Int
  rating : Rat
  is_active : Bool
deriving DecidableEq, Repr

/-- `reviews` table row (app/models/reviews.py); `comment_date` is modelled as
an abstract timestamp. -/
structure Review where
  id : Nat
  user_id : Nat
  product_id : Nat
  comment : Option String
  comment_date : Nat
  grade : Int
  is_active : Bool
deriving DecidableEq, Repr

/-- `users` row, as far as the handlers read it.  Modelled from the spec:
app/models/users.py is not under src/; the handlers only use `id` and the
role string (buyer / seller / admin). -/
structure User where
  id : Nat
  role : String
deriving DecidableEq, Repr

/-- The durable store: the three tables the specified handlers touch. -/
structure State where
  categories : List Category
  products : List Product
  reviews : List Review
deriving DecidableEq, Repr

/-- Caller-visible outcomes: the HTTPException kinds raised by the handlers,
plus Python runtime exceptions that escape as 500s. -/
inductive ApiError where
  | forbiddenRole
  | invalidGrade
  | productNotFound
  | reviewNotFound
  | categoryNotFound
  | parentNotFound
  | selfParentError
  | attributeError
  | typeError
deriving DecidableEq, Repr

instance {ε α : Type} [DecidableEq ε] [DecidableEq α] : DecidableEq (Except ε α) := fun x y =>
  match x, y with
  | .ok a, .ok b =>
      if h : a = b then .isTrue (by rw [h]) else .isFalse (by intro hc; cases hc; exact h rfl)
  | .ok _, .error _ => .isFalse (by intro hc; cases hc)
  | .error _, .ok _ => .isFalse (by intro hc; cases hc)
  | .error a, .error b =>
      if h : a = b then .isTrue (by rw [h]) else .isFalse (by intro hc; cases hc; exact h rfl)

/-- Request body for POST/PUT /categories.  Modelled from the spec:
app/schemas.py is not under src/; spec section 4.1 gives the create input as
name plus optional parent_id (is_active defaulting to true).  `parent_id = none`
models the field being absent, which `model_dump(exclude_unset=True)` omits. -/
structure CategoryCreate where
  name : String
  parent_id : Option Nat
deriving DecidableEq, Repr

/-- Request body for POST /reviews.  Modelled from the spec: app/schemas.py is
not under src/; spec section 6 gives the inputs product_id, grade, comment. -/
structure ReviewCreate where
  product_id : Nat
  grade : Int
  comment : Option String
deriving DecidableEq, Repr

/-- Python truthiness of `x or default` applied to an optional float:
both `None` and `0.0` are falsy (reviews.py line 127, `result.scalar() or 0.0`). -/
def pyOr (x : Option Rat) (default : Rat) : Rat :=
  match x with
  | none => default
  | some a => if a = 0 then default else a

/-- The rows `select(Review).where(product_id == pid, is_active == True)` returns. -/
def activeReviewsFor (s : State) (pid : Nat) : List Review :=
  s.reviews.filter (fun r => r.product_id == pid && r.is_active)

/-- Sum of the grades of a list of reviews, in `Rat`. -/
def gradeSum (l : List Review) : Rat :=
  (l.map (fun r => (r.grade : Rat))).sum

/-- SQL `AVG(grade)` over the active reviews of a product: `NULL` (none) on an
empty row set, otherwise the arithmetic mean. -/
def avgGrade (s : State) (pid : Nat) : Option Rat :=
  let rs := activeReviewsFor s pid
  if rs.length = 0 then none else some (gradeSum rs / (rs.length : Rat))

/-- The write `product.rating = avg_rating` on the row with the given id. -/
def setRating (s : State) (pid : Nat) (val : Rat) : State :=
  { s with products :=
      s.products.map (fun p => if p.id == pid then { p with rating := val } else p) }

/-- reviews.py `update_product_rating`: select AVG(grade) of the product's
active reviews, default it to 0.0 via Python `or`, `db.get` the product by
primary key and assign `product.rating`.  When no product row has that id,
`db.get` returns None and `product.rating = ...` raises AttributeError. -/
def update_product_rating (s : State) (product_id : Nat) : State × Except ApiError Unit :=
  match s.products.find? (fun p => p.id == product_id) with
  | none => (s, .error .attributeError)
  | some _ => (setRating s product_id (pyOr (avgGrade s product_id) 0), .ok ())

/-- The Review row `create_review` inserts:
`ReviewModel(**review.model_dump(), user_id=current_user.id)` with the
generated id, the creation timestamp and the is_active true default. -/
def newReview (current_user : User) (review : ReviewCreate) (newId now : Nat) : Review :=
  { id := newId, user_id := current_user.id, product_id := review.product_id,
    comment := review.comment, comment_date := now, grade := review.grade,
    is_active := true }

/-- `db.add` plus commit of a review row. -/
def insertReview (s : State) (r : Review) : State :=
  { s with reviews := s.reviews ++ [r] }

/-- `update(Review).where(Review.id == rid).values(is_active=False)`. -/
def softDeleteReview (s : State) (rid : Nat) : State :=
  { s with reviews :=
      s.reviews.map (fun r => if r.id == rid then { r with is_active := false } else r) }

/-- reviews.py `create_review`: role gate (403 unless buyer), grade bound
(400 unless 1 ≤ grade ≤ 5), product must exist active (404), then insert the
review (id and timestamp generated), commit, and recompute the rating.  A
failure inside the recompute leaves the already-committed review in place. -/
def create_review (s : State) (current_user : User) (review : ReviewCreate)
    (newId now : Nat) : State × Except ApiError Review :=
  if current_user.role ≠ "buyer" then
    (s, .error .forbiddenRole)
  else if review.grade < 1 ∨ review.grade > 5 then
    (s, .error .invalidGrade)
  else
    match s.products.find? (fun p => p.is_active && p.id == review.product_id) with
    | none => (s, .error .productNotFound)
    | some product =>
      match update_product_rating
          (insertReview s (newReview current_user review newId now)) product.id with
      | (s2, .ok _) => (s2, .ok (newReview current_user review newId now))
      | (s2, .error e) => (s2, .error e)

/-- reviews.py `delete_review`: the role gate is the `get_current_admin`
dependency (modelled from the spec: app/auth.py is not under src/; spec
section 4.2 has it fail ForbiddenRole for non-admins).  Then the review must
exist and be active (404), its product must exist and be active (404), the
review's is_active is flipped to false, committed, and the rating recomputed. -/
def delete_review (s : State) (current_user : User) (review_id : Nat) :
    State × Except ApiError String :=
  if current_user.role ≠ "admin" then
    (s, .error .forbiddenRole)
  else
    match s.reviews.find? (fun r => r.id == review_id && r.is_active) with
    | none => (s, .error .reviewNotFound)
    | some review =>
      match s.products.find? (fun p => p.id == review.product_id && p.is_active) with
      | none => (s, .error .productNotFound)
      | some product =>
        match update_product_rating (softDeleteReview s review.id) product.id with
        | (s2, .ok _) => (s2, .ok "Review deleted")
        | (s2, .error e) => (s2, .error e)

/-- The parent_id validation of categories.py `create_category`: when given,
the parent must name an existing category row — the lookup is
`where(Category.id == parent_id)` with no is_active filter — else 400
ParentNotFound. -/
def parentCheckCreate (s : State) (pid? : Option Nat) : Except ApiError Unit :=
  match pid? with
  | none => .ok ()
  | some pid =>
    match s.categories.find? (fun c => c.id == pid) with
    | none => .error .parentNotFound
    | some _ => .ok ()

/-- The Category row `create_category` inserts, is_active true by default. -/
def newCategory (category : CategoryCreate) (newId : Nat) : Category :=
  { id := newId, parent_id := category.parent_id, name := category.name, is_active := true }

/-- categories.py `create_category`: validate the optional parent, then insert
the new row. -/
def create_category (s : State) (category : CategoryCreate) (newId : Nat) :
    State × Except ApiError Category :=
  match parentCheckCreate s category.parent_id with
  | .error e => (s, .error e)
  | .ok _ =>
    ({ s with categories := s.categories ++ [newCategory category newId] },
     .ok (newCategory category newId))

/-- Field application of the PUT body, `model_dump(exclude_unset=True)`:
name is always in the payload; parent_id is written only when supplied. -/
def applyCategoryUpdate (c : Category) (category : CategoryCreate) : Category :=
  match category.parent_id with
  | none => { c with name := category.name }
  | some pid => { c with name := category.name, parent_id := some pid }

/-- The parent_id validation of categories.py `update_category`: when given,
the parent must name an existing row — the lookup is
`where(Category.id == parent_id)` with no is_active filter — else 400
ParentNotFound, and must differ from the target id else 400 SelfParentError
(`Category cannot be its own parent`). -/
def parentCheckUpdate (s : State) (category_id : Nat) (pid? : Option Nat) :
    Except ApiError Unit :=
  match pid? with
  | none => .ok ()
  | some pid =>
    match s.categories.find? (fun c => c.id == pid) with
    | none => .error .parentNotFound
    | some parent =>
      if parent.id == category_id then .error .selfParentError else .ok ()

/-- `update(Category).where(Category.id == category_id).values(**update_data)`. -/
def updateCategoryState (s : State) (category_id : Nat) (category : CategoryCreate) : State :=
  { s with categories :=
      s.categories.map (fun c => if c.id == category_id then applyCategoryUpdate c category else c) }

/-- `db.refresh(db_category)`: the row as re-read after the update. -/
def refreshedCategory (s : State) (category_id : Nat) (category : CategoryCreate)
    (db_category : Category) : Category :=
  ((updateCategoryState s category_id category).categories.find?
      (fun c => c.id == category_id)).getD (applyCategoryUpdate db_category category)

/-- categories.py `update_category`: target row must exist — lookup by id with
no is_active filter — else 400 CategoryNotFound; then the parent validation
runs; then the supplied fields are written and the refreshed row returned. -/
def update_category (s : State) (category_id : Nat) (category : CategoryCreate) :
    State × Except ApiError Category :=
  match s.categories.find? (fun c => c.id == category_id) with
  | none => (s, .error .categoryNotFound)
  | some db_category =>
    match parentCheckUpdate s category_id category.parent_id with
    | .error e => (s, .error e)
    | .ok _ =>
      (updateCategoryState s category_id category,
       .ok (refreshedCategory s category_id category db_category))

/-- categories.py `delete_category`: the handler runs
`result = await db.scalar(select(Category.id).where(id == category_id, is_active == True))`
— `db.scalar` already yields an `int | None` — and then calls
`result.first()`.  Neither `int` nor `None` has an attribute `first`, so every
request raises AttributeError before any branch is taken: the soft-delete
update and the 400 CategoryNotFound branch are both unreachable. -/
def delete_category (s : State) (category_id : Nat) : State × Except ApiError String :=
  let _result : Option Nat :=
    (s.categories.find? (fun c => c.id == category_id && c.is_active)).map (fun c => c.id)
  (s, .error .attributeError)

/-- products.py `delete_product`: the role gate is the `get_current_seller`
dependency (modelled from the spec: app/auth.py is not under src/; spec
section 6 has product mutation fail ForbiddenRole for non-sellers).  The
handler body then builds
`select(Product).where(id == product_id, is_active == True, Product.price.between())`
— `between` requires the two bounds `cleft, cright`, so calling it with no
arguments raises TypeError while the select expression is constructed, before
any precondition is checked or any row touched. -/
def delete_product (s : State) (product_id : Nat) (current_user : User) :
    State × Except ApiError Product :=
  if current_user.role ≠ "seller" then
    (s, .error .forbiddenRole)
  else
    (s, .error .typeError)

/-- Stated from the spec's words (section 4.3, Rating Aggregator): the
arithmetic mean of grade across all Review rows with matching product_id and
is_active true, and 0.0 — never null — when no active reviews exist.  Kept as
a second definition so the stored rating can be compared against it. -/
def specMean (s : State) (pid : Nat) : Rat :=
  let rs := activeReviewsFor s pid
  if rs.length = 0 then 0 else gradeSum rs / (rs.length : Rat)

/-- The stored rating of the product with the given id, as a reader sees it. -/
def ratingOf (s : State) (pid : Nat) : Option Rat :=
  (s.products.find? (fun p => p.id == pid)).map (fun p => p.rating)

/-- A root category for the concrete scenarios. -/
def demoCategory : Category :=
  { id := 1, parent_id := none, name := "root", is_active := true }

/-- A product with no reviews yet, rating at its 0 default. -/
def demoProduct : Product :=
  { id := 1, category_id := 1, seller_id := 2, price := 10, stock := 3,
    rating := 0, is_active := true }

/-- The buyer who writes the scenario reviews. -/
def demoBuyer : User := { id := 7, role := "buyer" }

/-- The admin who soft-deletes a review. -/
def demoAdmin : User := { id := 8, role := "admin" }

/-- Scenario start: one active category, one active product, no reviews. -/
def demoState0 : State :=
  { categories := [demoCategory], products := [demoProduct], reviews := [] }

/-- After the buyer posts grade 4 (review id 11). -/
def demoState1 : State :=
  (create_review demoState0 demoBuyer { product_id := 1, grade := 4, comment := none } 11 0).1

/-- After the buyer posts grade 5 (review id 12). -/
def demoState2 : State :=
  (create_review demoState1 demoBuyer { product_id := 1, grade := 5, comment := none } 12 0).1

/-- After the buyer posts grade 3 (review id 13). -/
def demoState3 : State :=
  (create_review demoState2 demoBuyer { product_id := 1, grade := 3, comment := none } 13 0).1

/-- After the admin soft-deletes the grade-3 review (id 13). -/
def demoState4 : State :=
  (delete_review demoState3 demoAdmin 13).1

/-- The request that posts the grade-3 review. -/
def demoReq3 : ReviewCreate := { product_id := 1, grade := 3, comment := none }

/-- The grade-3 review row as inserted (id 13). -/
def demoRev3 : Review := newReview demoBuyer demoReq3 13 0

/-- The seller who owns `demoProduct`. -/
def demoSeller : User := { id := 2, role := "seller" }

/-- A soft-deleted category used as a parent reference. -/
def inactiveParent : Category :=
  { id := 1, parent_id := none, name := "old", is_active := false }

/-- A store whose only category is soft-deleted. -/
def stInactiveParent : State :=
  { categories := [inactiveParent], products := [], reviews := [] }

/-- A create request that points at the soft-deleted category 1. -/
def childReq : CategoryCreate := { name := "child", parent_id := some 1 }

/-- A store with the soft-deleted category 1 and an active category 2. -/
def stTwoCats : State :=
  { categories := [inactiveParent,
      { id := 2, parent_id := none, name := "target", is_active := true }],
    products := [], reviews := [] }

/-- An update request that re-parents category 2 under the soft-deleted 1. -/
def reparentReq : CategoryCreate := { name := "target2", parent_id := some 1 }

/-- An update request naming category 2 as its own parent. -/
def selfReq : CategoryCreate := { name := "x", parent_id := some 2 }

/-- A review-create request with an out-of-range grade. -/
def badGradeReq : ReviewCreate := { product_id := 1, grade := 6, comment := none }

/-- A store holding one already-soft-deleted review (id 21). -/
def stInactiveReview : State :=
  { categories := [demoCategory], products := [demoProduct],
    reviews := [{ id := 21, user_id := 7, product_id := 1, comment := none,
                  comment_date := 0, grade := 4, is_active := false }] }

theorem pyOr_avgGrade (s : State) (pid : Nat) : pyOr (avgGrade s pid) 0 = specMean s pid := by
  unfold pyOr avgGrade specMean
  by_cases h : (activeReviewsFor s pid).length = 0
  · simp [h]
  · simp only [h, if_false]
    by_cases hz : gradeSum (activeReviewsFor s pid) / ((activeReviewsFor s pid).length : Rat) = 0
    · simp [hz]
    · simp [hz]

theorem update_product_rating_eq (s : State) (pid : Nat) :
    update_product_rating s pid =
      if (s.products.find? (fun p => p.id == pid)).isSome then
        (setRating s pid (specMean s pid), .ok ())
      else (s, .error .attributeError) := by
  unfold update_product_rating
  cases hf : s.products.find? (fun p => p.id == pid) with
  | none => simp [hf]
  | some q => simp [hf, pyOr_avgGrade]

theorem setRating_reviews (s : State) (pid : Nat) (v : Rat) :
    (setRating s pid v).reviews = s.reviews := rfl

theorem insertReview_products (s : State) (r : Review) :
    (insertReview s r).products = s.products := rfl

theorem insertReview_reviews (s : State) (r : Review) :
    (insertReview s r).reviews = s.reviews ++ [r] := rfl

theorem softDeleteReview_products (s : State) (rid : Nat) :
    (softDeleteReview s rid).products = s.products := rfl

theorem activeReviewsFor_eq_of_reviews_eq {s t : State} (h : s.reviews = t.reviews)
    (pid : Nat) : activeReviewsFor s pid = activeReviewsFor t pid := by
  unfold activeReviewsFor
  rw [h]

theorem specMean_eq_of_reviews_eq {s t : State} (h : s.reviews = t.reviews) (pid : Nat) :
    specMean s pid = specMean t pid := by
  unfold specMean
  rw [activeReviewsFor_eq_of_reviews_eq h]

theorem setRating_rating {s : State} {pid : Nat} {v : Rat} {p : Product}
    (hp : p ∈ (setRating s pid v).products) (hid : p.id = pid) : p.rating = v := by
  unfold setRating at hp
  simp only [List.mem_map] at hp
  obtain ⟨q, hq, hpq⟩ := hp
  by_cases h : q.id = pid
  · rw [← hpq]
    simp [h]
  · rw [← hpq] at hid
    simp [h] at hid

theorem mem_setRating_products {s : State} {pid : Nat} {v : Rat} {p : Product}
    (hp : p ∈ (setRating s pid v).products) :
    (p.id = pid ∧ p.rating = v) ∨ p ∈ s.products := by
  unfold setRating at hp
  simp only [List.mem_map] at hp
  obtain ⟨q, hq, hpq⟩ := hp
  by_cases h : q.id = pid
  · left
    constructor
    · rw [← hpq]; simp [h]
    · rw [← hpq]; simp [h]
  · right
    rw [← hpq]
    simpa [h] using hq

theorem gradeSum_bounds (l : List Review) (h : ∀ r ∈ l, 1 ≤ r.grade ∧ r.grade ≤ 5) :
    ((l.length : Rat)) ≤ gradeSum l ∧ gradeSum l ≤ 5 * (l.length : Rat) := by
  induction l with
  | nil => simp [gradeSum]
  | cons a t ih =>
    have ha := h a (by simp)
    have ht := ih (fun r hr => h r (by simp [hr]))
    have ha1 : (1 : Rat) ≤ (a.grade : Rat) := by exact_mod_cast ha.1
    have ha2 : (a.grade : Rat) ≤ 5 := by exact_mod_cast ha.2
    simp only [gradeSum, List.map_cons, List.sum_cons, List.length_cons] at *
    constructor
    · push_cast
      linarith [ht.1]
    · push_cast
      linarith [ht.2]

theorem specMean_of_empty {s : State} {pid : Nat} (h : activeReviewsFor s pid = []) :
    specMean s pid = 0 := by
  simp [specMean, h]

theorem specMean_bounds {s : State} {pid : Nat}
    (hg : ∀ r ∈ activeReviewsFor s pid, 1 ≤ r.grade ∧ r.grade ≤ 5)
    (hne : activeReviewsFor s pid ≠ []) :
    1 ≤ specMean s pid ∧ specMean s pid ≤ 5 := by
  have hlen : 0 < (activeReviewsFor s pid).length := List.length_pos.2 hne
  have hlQ : (0 : Rat) < ((activeReviewsFor s pid).length : Rat) := by exact_mod_cast hlen
  obtain ⟨hlow, hhigh⟩ := gradeSum_bounds _ hg
  unfold specMean
  rw [if_neg (Nat.pos_iff_ne_zero.mp hlen)]
  constructor
  · rw [le_div_iff₀ hlQ]
    linarith
  · rw [div_le_iff₀ hlQ]
    linarith

theorem grades_of_activeReviews {s : State} {pid : Nat}
    (hg : ∀ rv ∈ s.reviews, 1 ≤ rv.grade ∧ rv.grade ≤ 5) :
    ∀ r ∈ activeReviewsFor s pid, 1 ≤ r.grade ∧ r.grade ≤ 5 := by
  intro r hr
  exact hg r (List.mem_of_mem_filter hr)

theorem grades_insertReview {s : State} {r : Review}
    (hg : ∀ rv ∈ s.reviews, 1 ≤ rv.grade ∧ rv.grade ≤ 5)
    (hr : 1 ≤ r.grade ∧ r.grade ≤ 5) :
    ∀ rv ∈ (insertReview s r).reviews, 1 ≤ rv.grade ∧ rv.grade ≤ 5 := by
  intro rv hrv
  simp only [insertReview, List.mem_append, List.mem_singleton] at hrv
  rcases hrv with hmem | hmem
  · exact hg rv hmem
  · subst hmem
    exact hr

theorem grades_softDeleteReview {s : State} {rid : Nat}
    (hg : ∀ rv ∈ s.reviews, 1 ≤ rv.grade ∧ rv.grade ≤ 5) :
    ∀ rv ∈ (softDeleteReview s rid).reviews, 1 ≤ rv.grade ∧ rv.grade ≤ 5 := by
  intro rv hrv
  simp only [softDeleteReview, List.mem_map] at hrv
  obtain ⟨q, hq, hpq⟩ := hrv
  have hres := hg q hq
  by_cases h : q.id = rid
  · rw [← hpq]
    simpa [h] using hres
  · rw [← hpq]
    simpa [h] using hres

theorem activeReviewsFor_insertReview (s : State) (r : Review) (pid : Nat) :
    activeReviewsFor (insertReview s r) pid =
      activeReviewsFor s pid ++ (if r.product_id == pid && r.is_active then [r] else []) := by
  simp only [activeReviewsFor, insertReview, List.filter_append]
  congr 1
  cases h : (r.product_id == pid && r.is_active) <;> simp [List.filter, h]

theorem create_review_ok {s : State} {u : User} {rc : ReviewCreate} {nid now : Nat}
    {s' : State} {r : Review}
    (h : create_review s u rc nid now = (s', .ok r)) :
    u.role = "buyer" ∧ 1 ≤ rc.grade ∧ rc.grade ≤ 5 ∧ r = newReview u rc nid now ∧
      s' = setRating (insertReview s r) rc.product_id
        (specMean (insertReview s r) rc.product_id) := by
  unfold create_review at h
  by_cases hrole : u.role = "buyer"
  · rw [if_neg (by simp [hrole])] at h
    by_cases hg : rc.grade < 1 ∨ rc.grade > 5
    · rw [if_pos hg] at h
      exact absurd h (by simp)
    · rw [if_neg hg] at h
      push_neg at hg
      cases hf : s.products.find? (fun p => p.is_active && p.id == rc.product_id) with
      | none => simp [hf] at h
      | some product =>
        simp only [hf] at h
        have hpmem := List.mem_of_find?_eq_some hf
        have hpids : product.id = rc.product_id := by
          have hps := List.find?_some hf
          simp only [Bool.and_eq_true, beq_iff_eq] at hps
          exact hps.2
        have hfind2 : ((insertReview s (newReview u rc nid now)).products.find?
            (fun p => p.id == product.id)).isSome = true := by
          rw [List.find?_isSome]
          exact ⟨product, by simpa [insertReview] using hpmem, by simp⟩
        rw [update_product_rating_eq] at h
        simp only [hfind2, if_true, Prod.mk.injEq, Except.ok.injEq] at h
        obtain ⟨hs, hr⟩ := h
        subst hr
        refine ⟨hrole, by omega, by omega, rfl, ?_⟩
        rw [← hs, hpids]
  · rw [if_pos (by simp [hrole])] at h
    exact absurd h (by simp)

theorem delete_review_ok {s : State} {u : User} {rid : Nat} {s' : State} {m : String}
    (h : delete_review s u rid = (s', .ok m)) :
    ∃ review, s.reviews.find? (fun r => r.id == rid && r.is_active) = some review ∧
      s' = setRating (softDeleteReview s review.id) review.product_id
        (specMean (softDeleteReview s review.id) review.product_id) := by
  unfold delete_review at h
  by_cases hrole : u.role = "admin"
  · rw [if_neg (by simp [hrole])] at h
    cases hf : s.reviews.find? (fun r => r.id == rid && r.is_active) with
    | none => simp [hf] at h
    | some review =>
      simp only [hf] at h
      cases hfp : s.products.find? (fun p => p.id == review.product_id && p.is_active) with
      | none => simp [hfp] at h
      | some product =>
        simp only [hfp] at h
        have hpmem := List.mem_of_find?_eq_some hfp
        have hpids : product.id = review.product_id := by
          have hps := List.find?_some hfp
          simp only [Bool.and_eq_true, beq_iff_eq] at hps
          exact hps.1
        have hfind2 : ((softDeleteReview s review.id).products.find?
            (fun p => p.id == product.id)).isSome = true := by
          rw [List.find?_isSome]
          exact ⟨product, by simpa [softDeleteReview] using hpmem, by simp⟩
        rw [update_product_rating_eq] at h
        simp only [hfind2, if_true, Prod.mk.injEq] at h
        obtain ⟨hs, -⟩ := h
        exact ⟨review, rfl, by rw [← hs, hpids]⟩
  · rw [if_pos (by simp [hrole])] at h
    exact absurd h (by simp)

/-- C1: after the rating recompute runs following a successful review create or
review soft-delete, the stored Product.rating of the affected product equals
the arithmetic mean of grade over exactly the active Review rows with that
product_id (specMean); in particular, creating reviews with grades [4,5,3] on
a product with no prior reviews yields rating 4.0 and soft-deleting the
grade-3 review then yields 4.5. -/
theorem rating_equals_mean_after_mutation
    (s : State) (u : User) (rc : ReviewCreate) (nid now : Nat) (s' : State) (r : Review)
    (t : State) (v : User) (rid : Nat) (rv : Review) (t' : State) (m : String) :
    (create_review s u rc nid now = (s', .ok r) →
      ∀ p ∈ s'.products, p.id = rc.product_id → p.rating = specMean s' p.id)
    ∧ (t.reviews.find? (fun x => x.id == rid && x.is_active) = some rv →
        delete_review t v rid = (t', .ok m) →
        ∀ p ∈ t'.products, p.id = rv.product_id → p.rating = specMean t' p.id)
    ∧ ratingOf demoState3 1 = some 4 ∧ ratingOf demoState4 1 = some (9 / 2) := by
  refine ⟨?_, ?_, ?_, ?_⟩
  · intro h p hp hpid
    obtain ⟨-, -, -, -, hs⟩ := create_review_ok h
    subst hs
    rw [setRating_rating hp hpid, hpid]
    exact (specMean_eq_of_reviews_eq (setRating_reviews _ _ _) rc.product_id).symm
  · intro hfind h p hp hpid
    obtain ⟨review, hfind2, hs⟩ := delete_review_ok h
    rw [hfind] at hfind2
    injection hfind2 with hrv
    subst hrv
    subst hs
    rw [setRating_rating hp hpid, hpid]
    exact (specMean_eq_of_reviews_eq (setRating_reviews _ _ _) rv.product_id).symm
  · norm_num [demoState3, demoState2, demoState1, demoState0, demoBuyer, demoProduct,
      demoCategory, demoReq3, create_review, update_product_rating, avgGrade, pyOr,
      activeReviewsFor, gradeSum, ratingOf, newReview, insertReview, setRating, List.find?,
      List.filter]
  · norm_num [demoState4, demoState3, demoState2, demoState1, demoState0, demoBuyer,
      demoAdmin, demoProduct, demoCategory, demoReq3, create_review, delete_review,
      update_product_rating, avgGrade, pyOr, activeReviewsFor, gradeSum, ratingOf, newReview,
      insertReview, softDeleteReview, setRating, List.find?, List.filter]

theorem rating_equals_mean_after_mutation_witness :
    (∀ p ∈ demoState3.products, p.id = 1 → p.rating = specMean demoState3 p.id)
    ∧ (∀ p ∈ demoState4.products, p.id = 1 → p.rating = specMean demoState4 p.id) := by
  have H := rating_equals_mean_after_mutation demoState2 demoBuyer demoReq3 13 0 demoState3
    demoRev3 demoState3 demoAdmin 13 demoRev3 demoState4 "Review deleted"
  exact ⟨H.1 rfl, H.2.1 rfl rfl⟩

/-- C2: for every product with zero active reviews, the rating recompute
succeeds and stores the defined default 0 in Product.rating — the result is
never absent and the average of the empty set is not an error. -/
theorem empty_reviews_rating_zero (s : State) (pid : Nat)
    (hex : ∃ p ∈ s.products, p.id = pid)
    (hempty : activeReviewsFor s pid = []) :
    ∃ s', update_product_rating s pid = (s', .ok ()) ∧
      ∀ p ∈ s'.products, p.id = pid → p.rating = 0 := by
  have hfind : (s.products.find? (fun p => p.id == pid)).isSome = true := by
    rw [List.find?_isSome]
    obtain ⟨p, hp, hid⟩ := hex
    exact ⟨p, hp, by simp [hid]⟩
  refine ⟨setRating s pid (specMean s pid), ?_, ?_⟩
  · rw [update_product_rating_eq]
    simp [hfind]
  · intro p hp hid
    rw [setRating_rating hp hid, specMean_of_empty hempty]

theorem empty_reviews_rating_zero_witness :
    ∃ s', update_product_rating demoState0 1 = (s', .ok ()) ∧
      ∀ p ∈ s'.products, p.id = 1 → p.rating = 0 :=
  empty_reviews_rating_zero demoState0 1 (by decide) rfl

/-- C3: the category soft-delete handler never reaches its CategoryNotFound
branch or its update: `db.scalar(...)` already returns an `int | None`, and the
`.first()` call on it raises AttributeError on every request, for every store
and every id, leaving the store unchanged. -/
theorem delete_category_always_raises (s : State) (category_id : Nat) :
    delete_category s category_id = (s, .error .attributeError) := rfl

/-- C4: the product soft-delete handler raises TypeError for every seller on
every input — `Product.price.between()` is called with no arguments while the
select is being built — so no authorized call ever soft-deletes a product. -/
theorem delete_product_always_raises (s : State) (product_id : Nat) (u : User)
    (h : u.role = "seller") :
    delete_product s product_id u = (s, .error .typeError) := by
  unfold delete_product
  rw [if_neg (by simp [h])]

theorem delete_product_always_raises_witness :
    delete_product demoState0 1 demoSeller = (demoState0, .error .typeError) :=
  delete_product_always_raises demoState0 1 demoSeller rfl

/-- C5 counterexample: creating a category under the soft-deleted category 1
succeeds and adds the row, contradicting the claim that it fails with
ParentNotFound and creates nothing. -/
theorem create_under_inactive_parent_succeeds :
    create_category stInactiveParent childReq 2 =
      ({ categories := [inactiveParent, newCategory childReq 2],
         products := [], reviews := [] },
       .ok (newCategory childReq 2)) := by decide

/-- C5 (amended): category creation checks only that the parent row exists —
an existing but inactive parent is accepted and the category is created; only
a parent_id naming no row at all fails with ParentNotFound, creating nothing. -/
theorem create_category_checks_parent_existence_only
    (s : State) (cc : CategoryCreate) (pid nid : Nat) (hp : cc.parent_id = some pid) :
    ((∃ c ∈ s.categories, c.id = pid) →
      create_category s cc nid =
        ({ s with categories := s.categories ++ [newCategory cc nid] },
         .ok (newCategory cc nid)))
    ∧ ((∀ c ∈ s.categories, c.id ≠ pid) →
      create_category s cc nid = (s, .error .parentNotFound)) := by
  constructor
  · intro hex
    unfold create_category parentCheckCreate
    rw [hp]
    cases hf : s.categories.find? (fun c => c.id == pid) with
    | none =>
      rw [List.find?_eq_none] at hf
      obtain ⟨c, hc, hid⟩ := hex
      exact absurd (show ((fun c => c.id == pid) c = true) by simp [hid]) (hf c hc)
    | some c => simp [hf]
  · intro hne
    unfold create_category parentCheckCreate
    rw [hp]
    have hf : s.categories.find? (fun c => c.id == pid) = none := by
      rw [List.find?_eq_none]
      intro c hc
      simp [hne c hc]
    simp [hf]

theorem create_category_checks_parent_existence_only_witness :
    create_category stInactiveParent childReq 2 =
      ({ stInactiveParent with
          categories := stInactiveParent.categories ++ [newCategory childReq 2] },
       .ok (newCategory childReq 2)) :=
  (create_category_checks_parent_existence_only stInactiveParent childReq 1 2 rfl).1 (by decide)

/-- C6 counterexample: updating category 2 with parent_id 1, where category 1
exists but is soft-deleted, succeeds and writes the new parent, contradicting
the claim that an inactive parent is rejected with the target left unchanged. -/
theorem update_with_inactive_parent_succeeds :
    update_category stTwoCats 2 reparentReq =
      ({ categories := [inactiveParent,
           { id := 2, parent_id := some 1, name := "target2", is_active := true }],
         products := [], reviews := [] },
       .ok { id := 2, parent_id := some 1, name := "target2", is_active := true }) := by
  decide

/-- C6 (amended): a category update that supplies parent_id succeeds for any
existing parent row different from the target id — activity of the parent is
not checked; ParentNotFound arises exactly when no row with that id exists, in
which case the store is unchanged. -/
theorem update_category_checks_parent_existence_only
    (s : State) (cid : Nat) (cc : CategoryCreate) (pid : Nat)
    (hp : cc.parent_id = some pid)
    (htarget : ∃ c ∈ s.categories, c.id = cid) :
    ((∀ c ∈ s.categories, c.id ≠ pid) → update_category s cid cc = (s, .error .parentNotFound))
    ∧ ((∃ c ∈ s.categories, c.id = pid) → pid ≠ cid →
        (update_category s cid cc).1 = updateCategoryState s cid cc ∧
        ∃ c, (update_category s cid cc).2 = .ok c) := by
  cases hft : s.categories.find? (fun c => c.id == cid) with
  | none =>
    rw [List.find?_eq_none] at hft
    obtain ⟨c, hc, hid⟩ := htarget
    exact absurd (show ((fun c => c.id == cid) c = true) by simp [hid]) (hft c hc)
  | some d =>
    constructor
    · intro hne
      unfold update_category parentCheckUpdate
      rw [hp]
      have hf : s.categories.find? (fun c => c.id == pid) = none := by
        rw [List.find?_eq_none]
        intro c hc
        simp [hne c hc]
      simp [hft, hf]
    · intro hex hne
      unfold update_category parentCheckUpdate
      rw [hp]
      cases hf : s.categories.find? (fun c => c.id == pid) with
      | none =>
        rw [List.find?_eq_none] at hf
        obtain ⟨c, hc, hid⟩ := hex
        exact absurd (show ((fun c => c.id == pid) c = true) by simp [hid]) (hf c hc)
      | some par =>
        have hpar : par.id = pid := by simpa using List.find?_some hf
        have hcond : ¬(par.id = cid) := by
          rw [hpar]
          exact hne
        simp [hft, hf, hcond]

theorem update_category_checks_parent_existence_only_witness :
    (update_category stTwoCats 2 reparentReq).1 = updateCategoryState stTwoCats 2 reparentReq ∧
    ∃ c, (update_category stTwoCats 2 reparentReq).2 = .ok c :=
  (update_category_checks_parent_existence_only stTwoCats 2 reparentReq 1 rfl
    (by decide)).2 (by decide) (by decide)

/-- C7: updating an existing category with parent_id equal to its own id fails
with SelfParentError and returns the store unchanged — no write occurs. -/
theorem self_parent_update_rejected (s : State) (cid : Nat) (cc : CategoryCreate)
    (hp : cc.parent_id = some cid) (hex : ∃ c ∈ s.categories, c.id = cid) :
    update_category s cid cc = (s, .error .selfParentError) := by
  cases hft : s.categories.find? (fun c => c.id == cid) with
  | none =>
    rw [List.find?_eq_none] at hft
    obtain ⟨c, hc, hid⟩ := hex
    exact absurd (show ((fun c => c.id == cid) c = true) by simp [hid]) (hft c hc)
  | some d =>
    have hd : d.id = cid := by simpa using List.find?_some hft
    unfold update_category parentCheckUpdate
    rw [hp]
    simp [hft, hd]

theorem self_parent_update_rejected_witness :
    update_category stTwoCats 2 selfReq = (stTwoCats, .error .selfParentError) :=
  self_parent_update_rejected stTwoCats 2 selfReq rfl (by decide)

/-- C8: a review create by a buyer whose grade lies outside [1,5] fails with
InvalidGrade and the store is returned unchanged — no row is inserted. -/
theorem invalid_grade_rejected (s : State) (u : User) (rc : ReviewCreate) (nid now : Nat)
    (hrole : u.role = "buyer") (hg : rc.grade < 1 ∨ rc.grade > 5) :
    create_review s u rc nid now = (s, .error .invalidGrade) := by
  unfold create_review
  rw [if_neg (by simp [hrole]), if_pos hg]

theorem invalid_grade_rejected_witness :
    create_review demoState0 demoBuyer badGradeReq 99 0 = (demoState0, .error .invalidGrade) :=
  invalid_grade_rejected demoState0 demoBuyer badGradeReq 99 0 rfl (by decide)

/-- C9: review soft-delete is not idempotent — when every review with the given
id is already inactive, an admin's delete_review fails with ReviewNotFound and
the store is returned unchanged. -/
theorem delete_inactive_review_fails (s : State) (u : User) (rid : Nat)
    (hrole : u.role = "admin")
    (hinactive : ∀ r ∈ s.reviews, r.id = rid → r.is_active = false) :
    delete_review s u rid = (s, .error .reviewNotFound) := by
  unfold delete_review
  rw [if_neg (by simp [hrole])]
  have hnone : s.reviews.find? (fun r => r.id == rid && r.is_active) = none := by
    rw [List.find?_eq_none]
    intro r hr
    simp only [Bool.and_eq_true, beq_iff_eq, not_and]
    intro hid
    simp [hinactive r hr hid]
  simp [hnone]

theorem delete_inactive_review_fails_witness :
    delete_review stInactiveReview demoAdmin 21 = (stInactiveReview, .error .reviewNotFound) :=
  delete_inactive_review_fails stInactiveReview demoAdmin 21 rfl (by decide)

/-- C10: when every stored grade lies in [1,5], a successful review create
leaves the affected product with a rating in [1,5] (nonempty mean, never the 0
default), and a successful review soft-delete leaves every product row either
untouched or with a recomputed rating that is 0 exactly on an empty active-
review set and otherwise lies in [1,5]. -/
theorem rating_range_invariant
    (s : State) (u : User) (rc : ReviewCreate) (nid now : Nat) (s' : State) (r : Review)
    (t : State) (v : User) (rid : Nat) (t' : State) (m : String)
    (hgs : ∀ rv ∈ s.reviews, 1 ≤ rv.grade ∧ rv.grade ≤ 5)
    (hgt : ∀ rv ∈ t.reviews, 1 ≤ rv.grade ∧ rv.grade ≤ 5) :
    (create_review s u rc nid now = (s', .ok r) →
      ∀ p ∈ s'.products, p.id = rc.product_id →
        (1 ≤ p.rating ∧ p.rating ≤ 5) ∧ p.rating ≠ 0 ∧ activeReviewsFor s' p.id ≠ [])
    ∧ (delete_review t v rid = (t', .ok m) →
      ∀ p ∈ t'.products, p ∈ t.products ∨
        (p.rating = 0 ∧ activeReviewsFor t' p.id = []) ∨
        ((1 ≤ p.rating ∧ p.rating ≤ 5) ∧ activeReviewsFor t' p.id ≠ [])) := by
  constructor
  · intro h p hp hpid
    obtain ⟨-, hg1, hg2, hr, hs⟩ := create_review_ok h
    have hgall : ∀ x ∈ (insertReview s r).reviews, 1 ≤ x.grade ∧ x.grade ≤ 5 := by
      refine grades_insertReview hgs ?_
      rw [hr]
      exact ⟨hg1, hg2⟩
    have hne : activeReviewsFor (insertReview s r) rc.product_id ≠ [] := by
      rw [activeReviewsFor_insertReview]
      rw [hr]
      simp [newReview]
    have hbounds := specMean_bounds (grades_of_activeReviews hgall) hne
    subst hs
    have hrate := setRating_rating hp hpid
    refine ⟨by rw [hrate]; exact hbounds, ?_, ?_⟩
    · rw [hrate]
      have h01 : (0 : Rat) < specMean (insertReview s r) rc.product_id :=
        lt_of_lt_of_le zero_lt_one hbounds.1
      exact ne_of_gt h01
    · rw [hpid]
      exact hne
  · intro h p hp
    obtain ⟨review, hfind, hs⟩ := delete_review_ok h
    subst hs
    rcases mem_setRating_products hp with ⟨hpid, hrate⟩ | hmem
    · right
      have hgall : ∀ x ∈ (softDeleteReview t review.id).reviews,
          1 ≤ x.grade ∧ x.grade ≤ 5 := grades_softDeleteReview hgt
      by_cases hemp : activeReviewsFor (softDeleteReview t review.id) review.product_id = []
      · left
        constructor
        · rw [hrate, specMean_of_empty hemp]
        · rw [hpid]
          exact hemp
      · right
        have hbounds := specMean_bounds (grades_of_activeReviews hgall) hemp
        constructor
        · rw [hrate]
          exact hbounds
        · rw [hpid]
          exact hemp
    · left
      exact hmem

theorem rating_range_invariant_witness :
    (∀ p ∈ demoState3.products, p.id = 1 →
      (1 ≤ p.rating ∧ p.rating ≤ 5) ∧ p.rating ≠ 0 ∧ activeReviewsFor demoState3 p.id ≠ [])
    ∧ (∀ p ∈ demoState4.products, p ∈ demoState3.products ∨
        (p.rating = 0 ∧ activeReviewsFor demoState4 p.id = []) ∨
        ((1 ≤ p.rating ∧ p.rating ≤ 5) ∧ activeReviewsFor demoState4 p.id ≠ [])) := by
  have H := rating_range_invariant demoState2 demoBuyer demoReq3 13 0 demoState3 demoRev3
    demoState3 demoAdmin 13 demoState4 "Review deleted" (by decide) (by decide)
  exact ⟨H.1 rfl, H.2 rfl⟩

end Ecommerce
